import Mathlib

/-!
Shallow embedding of the WalletPay `WebhookManager`
(`src/WalletPay/WebhookManager.py`): the client-IP admission gate, the
canonical-message construction, the signature comparison, the event
classification and the callback fan-out of `_handle_webhook`, together with the
registration decorators and the endpoint normalization of `__init__`.

External collaborators (FastAPI request parsing, the JSON decoder, the
HMAC-SHA256 primitive from `hmac`/`hashlib`) are modelled at their interfaces:
the JSON parse result is a field of the request model, and the keyed digest is a
function parameter `hmacFn`.
-/

namespace WalletPayModel

/-- Python exceptions that `_handle_webhook` can raise unhandled; they escape the
handler and surface as the framework's generic server error, not as a structured
`HTTPException` response. -/
inductive PyErr where
  | typeError
  | indexError
  | keyError
  | jsonDecodeError
deriving DecidableEq, Repr

/-- Parsed JSON values, the result type of `await request.json()`. -/
inductive Json where
  | null
  | bool (b : Bool)
  | num (n : Int)
  | str (s : String)
  | arr (elems : List Json)
  | obj (fields : List (String × Json))

/-- Outcome of one `_handle_webhook` call: a normal JSON body with a `message`
field, a raised `HTTPException` (status code and `detail` body), or an unhandled
Python exception. -/
inductive HandlerOutcome where
  | response (message : String)
  | httpException (status : Nat) (detail : String)
  | unhandled (e : PyErr)
deriving DecidableEq, Repr

/-- Modelled from the spec: the `Event` class lives in `WalletPay/types.py`,
which is absent from the sources; per the spec it is "a typed view over the
parsed JSON payload" that "carries a `type` discriminator". We model it as a
wrapper around the payload passed to `Event(data[0])`. -/
structure Event where
  payload : Json

/-- Modelled from the spec: the `type` discriminator of an event, read from the
`type` field of the payload object; an absent or non-string discriminator
compares unequal to every recognized category. -/
def Event.type (e : Event) : Option String :=
  match e.payload with
  | .obj fields =>
    match fields.lookup "type" with
    | some (.str s) => some s
    | _ => none
  | _ => none

/-- The slice of a FastAPI `Request` that `_handle_webhook` reads: HTTP method,
locally parsed URL path (`request.url.path`), direct peer address
(`request.client.host`), header lookup (`request.headers.get`, `none` for an
absent header), raw body bytes (`await request.body()`), and the result of the
external JSON decoder on that body (`await request.json()`; `none` models a
raised `json.JSONDecodeError`). -/
structure PyRequest where
  method : String
  urlPath : String
  clientHost : String
  headers : String → Option String
  body : List Nat
  jsonParse : Option Json

/-- `WebhookManager.ALLOWED_IPS`. -/
def ALLOWED_IPS : List String := ["172.255.248.29", "172.255.248.12", "127.0.0.1"]

/-- The standard base64 alphabet used by `base64.b64encode`. -/
def base64Alphabet : List Char :=
  "ABCDEFGHIJKLMNOPQRSTUVWXYZabcdefghijklmnopqrstuvwxyz0123456789+/".data

def base64Digit (i : Nat) : Char := base64Alphabet.getD i 'A'

/-- `base64.b64encode` on a byte list: three input bytes become four output
characters, with `=` padding for a trailing group of one or two bytes. -/
def b64EncodeChars : List Nat → List Char
  | [] => []
  | [a] => [base64Digit (a / 4), base64Digit (a % 4 * 16), '=', '=']
  | [a, b] => [base64Digit (a / 4), base64Digit (a % 4 * 16 + b / 16),
      base64Digit (b % 16 * 4), '=']
  | a :: b :: c :: rest =>
      base64Digit (a / 4) :: base64Digit (a % 4 * 16 + b / 16) ::
      base64Digit (b % 16 * 4 + c / 64) :: base64Digit (c % 64) ::
      b64EncodeChars rest

def b64encode (bs : List Nat) : String := String.mk (b64EncodeChars bs)

/-- `bytes(s, "utf-8")` as a list of byte values. -/
def strBytes (s : String) : List Nat :=
  (s.data.flatMap String.utf8EncodeChar).map UInt8.toNat

/-- The character codes `hmac.compare_digest` compares when given two ASCII
strings (for ASCII text the codes coincide with the bytes). -/
def strCodes (s : String) : List Nat := s.data.map Char.toNat

/-- Python f-string interpolation of a header value that may be `None`. -/
def fstrOpt : Option String → String
  | none => "None"
  | some s => s

/-- One pass of `hmac.compare_digest`: fold over every byte pair, accumulating
the bitwise OR of the XOR of the pair, and count the comparisons performed;
there is no early exit. -/
def compareDigestRun : List (Nat × Nat) → Nat → Nat × Nat
  | [], acc => (acc, 0)
  | p :: rest, acc =>
    let r := compareDigestRun rest (acc ||| (p.1 ^^^ p.2))
    (r.1, r.2 + 1)

/-- The `_tscmp` byte-level pass of `hmac.compare_digest`: equal lengths and an
all-zero accumulated difference. -/
def compare_digest (a b : List Nat) : Bool :=
  a.length == b.length && (compareDigestRun (a.zip b) 0).1 == 0

/-- Number of byte comparisons `compare_digest` performs. -/
def compareDigestSteps (a b : List Nat) : Nat := (compareDigestRun (a.zip b) 0).2

/-- Whether every character of a string is ASCII. CPython requires this of both
`str` arguments of `hmac.compare_digest`. -/
def isAsciiStr (s : String) : Bool := s.data.all (fun c => c.toNat < 128)

/-- CPython `hmac.compare_digest` on two `str` arguments: both must be
ASCII-only, otherwise it raises `TypeError` (Starlette decodes header bytes with
latin-1, so a header byte at or above 0x80 reaches the comparison as a non-ASCII
character); on ASCII strings it runs the `_tscmp` byte pass on the character
codes, which for ASCII text coincide with the bytes. -/
def pyCompareDigestStr (a b : String) : Except PyErr Bool :=
  if isAsciiStr a && isAsciiStr b then
    Except.ok (compare_digest (strCodes a) (strCodes b))
  else Except.error PyErr.typeError

/-- Python `str.split(", ")` on a character list: split at each leftmost
non-overlapping occurrence of the two-character separator; the empty string
splits to `[""]`. -/
def splitCommaSpace : List Char → List (List Char)
  | [] => [[]]
  | ',' :: ' ' :: rest => [] :: splitCommaSpace rest
  | c :: rest =>
    match splitCommaSpace rest with
    | [] => [[c]]
    | w :: ws => (c :: w) :: ws

/-- Python `s.split(", ")` (the external `str.split` builtin, with the fixed
separator the source uses). -/
def pySplitCommaSpace (s : String) : List String :=
  (splitCommaSpace s.data).map String.mk

/-- `WebhookManager.__get_x_forwarded_for` (lines 106-121): when the
`X-Forwarded-For` header is present and truthy (nonempty), split it on `", "`
and return the first candidate found in `ALLOWED_IPS`; otherwise `none`. -/
def get_x_forwarded_for (headers : String → Option String) : Option String :=
  match headers "X-Forwarded-For" with
  | none => none
  | some xff =>
    if xff = "" then none
    else (pySplitCommaSpace xff).find? (fun ip => ALLOWED_IPS.contains ip)

/-- `WebhookManager.__get_client_ip` (lines 123-142); `Except.error` models a
raised `HTTPException` as a (status, detail) pair. -/
def get_client_ip (req : PyRequest) : Except (Nat × String) String :=
  match get_x_forwarded_for req.headers with
  | some ip => Except.ok ip
  | none =>
    if ALLOWED_IPS.contains req.clientHost then Except.ok req.clientHost
    else Except.error (403, "IP not allowed")

/-- `request.headers.get("X-Original-URI") or request.url.path` (line 166):
Python `or` falls back when the header is absent or its value is the empty
string. -/
def requestPath (req : PyRequest) : String :=
  match req.headers "X-Original-URI" with
  | some s => if s = "" then req.urlPath else s
  | none => req.urlPath

/-- The message
`f"{method}.{path}.{timestamp}.{base64.b64encode(raw_body).decode()}"` built at
line 167; a missing timestamp header interpolates as the literal text `None`. -/
def canonicalMessage (req : PyRequest) : String :=
  req.method ++ "." ++ requestPath req ++ "." ++
    fstrOpt (req.headers "WalletPay-Timestamp") ++ "." ++ b64encode req.body

/-- `base64.b64encode(hmac.new(key, msg, sha256).digest()).decode()` (lines
169-175): the expected signature; the HMAC-SHA256 primitive is the external
`hmac`/`hashlib` collaborator, passed in as `hmacFn` (key bytes and message
bytes to digest bytes). -/
def expectedSignatureB64 (hmacFn : List Nat → List Nat → List Nat)
    (api_key : String) (req : PyRequest) : String :=
  b64encode (hmacFn (strBytes api_key) (strBytes (canonicalMessage req)))

/-- Python subscripting `data[0]` (line 182) on a parsed JSON value: lists index
from the front (`IndexError` when empty), dicts with string keys raise
`KeyError` for the integer key `0`, strings index their first character, and
scalars raise `TypeError`. -/
def pyIndex0 : Json → Except PyErr Json
  | .arr [] => Except.error .indexError
  | .arr (x :: _) => Except.ok x
  | .obj _ => Except.error .keyError
  | .str s =>
    match s.data with
    | [] => Except.error .indexError
    | c :: _ => Except.ok (.str (String.mk [c]))
  | _ => Except.error .typeError

/-- The `WebhookManager` attributes the handler and the registration decorators
touch; callbacks are opaque handles of type `α`, observed in the dispatch
trace. -/
structure WebhookManagerState (α : Type) where
  successful_callbacks : List α
  failed_callbacks : List α
  api_key : String
  webhook_endpoint : String

/-- Event classification and callback fan-out (lines 182-192): the trace records
each `await callback(event=event, client=self.client)` invocation in order. -/
def dispatchEvent {α : Type} (mgr : WebhookManagerState α) (event : Event) :
    HandlerOutcome × List (α × Event) :=
  if Event.type event = some "ORDER_PAID" then
    (.response "Successful event processed!",
      mgr.successful_callbacks.map (fun c => (c, event)))
  else if Event.type event = some "ORDER_FAILED" then
    (.response "Failed event processed!",
      mgr.failed_callbacks.map (fun c => (c, event)))
  else
    (.response "Webhook received with unknown status!", [])

/-- `WebhookManager._handle_webhook` (lines 144-192), in source order: the IP
gate, the JSON decode of the body, the signature computation and comparison
(`hmac.compare_digest` raises `TypeError` when the `Walletpay-Signature` header
is absent - its value is then `None` - and likewise when the provided value
contains a non-ASCII character), then `Event(data[0])` and dispatch. -/
def handle_webhook {α : Type} (hmacFn : List Nat → List Nat → List Nat)
    (mgr : WebhookManagerState α) (req : PyRequest) :
    HandlerOutcome × List (α × Event) :=
  match get_client_ip req with
  | Except.error (status, detail) => (.httpException status detail, [])
  | Except.ok _ =>
    match req.jsonParse with
    | none => (.unhandled .jsonDecodeError, [])
    | some data =>
      match req.headers "Walletpay-Signature" with
      | none => (.unhandled .typeError, [])
      | some signature =>
        match pyCompareDigestStr (expectedSignatureB64 hmacFn mgr.api_key req)
            signature with
        | Except.error e => (.unhandled e, [])
        | Except.ok true =>
          match pyIndex0 data with
          | Except.error e => (.unhandled e, [])
          | Except.ok v => dispatchEvent mgr (Event.mk v)
        | Except.ok false => (.httpException 400 "Invalid signature", [])

/-- The decorator returned by `WebhookManager.successful_handler` (lines
80-91): append `func` to `successful_callbacks` and return `func` unchanged. -/
def successful_handler {α : Type} (mgr : WebhookManagerState α) (func : α) :
    WebhookManagerState α × α :=
  ({ mgr with successful_callbacks := mgr.successful_callbacks ++ [func] }, func)

/-- The decorator returned by `WebhookManager.failed_handler` (lines 93-104). -/
def failed_handler {α : Type} (mgr : WebhookManagerState α) (func : α) :
    WebhookManagerState α × α :=
  ({ mgr with failed_callbacks := mgr.failed_callbacks ++ [func] }, func)

/-- The `webhook_endpoint` normalization in `WebhookManager.__init__` (lines
50-53); `webhook_endpoint[0]` raises `IndexError` on an empty string. -/
def initWebhookEndpoint (webhook_endpoint : String) : Except PyErr String :=
  match webhook_endpoint.data with
  | [] => Except.error .indexError
  | c :: _ =>
    Except.ok (if c = '/' then webhook_endpoint else "/" ++ webhook_endpoint)

/-- Claim C2's canonical message, following the claim's words: the path is the
`X-Original-URI` header value whenever that header is present, even when its
value is empty. -/
def canonicalMessageClaim (req : PyRequest) : String :=
  String.intercalate "."
    [req.method,
     (match req.headers "X-Original-URI" with
      | some s => s
      | none => req.urlPath),
     fstrOpt (req.headers "WalletPay-Timestamp"),
     b64encode req.body]

/-- The amended C2 canonical message: the `X-Original-URI` value is used only
when present and nonempty, and a missing timestamp header contributes the
literal text `None`. -/
def canonicalMessageAmended (req : PyRequest) : String :=
  String.intercalate "."
    [req.method,
     (match req.headers "X-Original-URI" with
      | some s => if s = "" then req.urlPath else s
      | none => req.urlPath),
     fstrOpt (req.headers "WalletPay-Timestamp"),
     b64encode req.body]

/-- A stand-in for the external HMAC-SHA256 collaborator, used to instantiate
the universally quantified `hmacFn` in concrete evaluations. -/
def hmacConst : List Nat → List Nat → List Nat := fun _ _ => [0, 1, 2]

/-- Header mapping built from an association list. -/
def headersOf (l : List (String × String)) : String → Option String :=
  fun k => l.lookup k

/-- A concrete manager with two success callbacks and one failure callback. -/
def mgrTest : WebhookManagerState Nat :=
  { successful_callbacks := [10, 20], failed_callbacks := [30],
    api_key := "key", webhook_endpoint := "/wp_webhook" }

/-- Allowed peer, correct signature for `hmacConst` (`b64encode [0,1,2]` is
`"AAEC"`), payload `[{"type": "ORDER_PAID"}]`. -/
def reqPaid : PyRequest :=
  { method := "POST", urlPath := "/wp_webhook", clientHost := "127.0.0.1",
    headers := headersOf
      [("Walletpay-Signature", "AAEC"), ("WalletPay-Timestamp", "123")],
    body := [], jsonParse := some (.arr [.obj [("type", .str "ORDER_PAID")]]) }

/-- Unallowed peer, no forwarding header. -/
def reqBadPeer : PyRequest :=
  { method := "POST", urlPath := "/wp_webhook", clientHost := "10.0.0.5",
    headers := headersOf [], body := [], jsonParse := some (.arr []) }

/-- Unallowed peer but a forwarding header whose second candidate is allowed. -/
def reqXff : PyRequest :=
  { method := "POST", urlPath := "/wp_webhook", clientHost := "10.0.0.5",
    headers := headersOf
      [("X-Forwarded-For", "8.8.8.8, 172.255.248.12, 127.0.0.1")],
    body := [], jsonParse := some (.arr []) }

/-- Allowed peer, valid JSON payload, timestamp present, but no
`Walletpay-Signature` header. -/
def reqNoSig : PyRequest :=
  { method := "POST", urlPath := "/wp_webhook", clientHost := "127.0.0.1",
    headers := headersOf [("WalletPay-Timestamp", "123")],
    body := [], jsonParse := some (.arr [.obj [("type", .str "ORDER_PAID")]]) }

/-- Allowed peer, signature header present but not matching, no timestamp
header. -/
def reqNoTs : PyRequest :=
  { method := "POST", urlPath := "/wp_webhook", clientHost := "127.0.0.1",
    headers := headersOf [("Walletpay-Signature", "WRONG")],
    body := [], jsonParse := some (.arr [.obj [("type", .str "ORDER_PAID")]]) }

/-- Allowed peer, body that is not valid JSON. -/
def reqBadJson : PyRequest :=
  { method := "POST", urlPath := "/wp_webhook", clientHost := "127.0.0.1",
    headers := headersOf
      [("Walletpay-Signature", "AAEC"), ("WalletPay-Timestamp", "123")],
    body := [1, 2, 3], jsonParse := none }

/-- Allowed peer, body parsing to the empty JSON array, non-matching
signature. -/
def reqEmptyArr : PyRequest :=
  { method := "POST", urlPath := "/wp_webhook", clientHost := "127.0.0.1",
    headers := headersOf
      [("Walletpay-Signature", "WRONG"), ("WalletPay-Timestamp", "123")],
    body := [], jsonParse := some (.arr []) }

/-- Allowed peer, signature header present but not matching, body that is not
valid JSON. -/
def reqC7 : PyRequest :=
  { method := "POST", urlPath := "/wp_webhook", clientHost := "127.0.0.1",
    headers := headersOf
      [("Walletpay-Signature", "WRONG"), ("WalletPay-Timestamp", "123")],
    body := [1, 2, 3], jsonParse := none }

/-- Allowed peer, valid JSON payload, timestamp present, and a non-ASCII
`Walletpay-Signature` header value (a latin-1-decoded 0xFF byte). -/
def reqNonAsciiSig : PyRequest :=
  { method := "POST", urlPath := "/wp_webhook", clientHost := "127.0.0.1",
    headers := headersOf
      [("Walletpay-Signature", "\u00FF"), ("WalletPay-Timestamp", "123")],
    body := [], jsonParse := some (.arr [.obj [("type", .str "ORDER_PAID")]]) }

/-- Present-but-empty `X-Original-URI` header, timestamp present. -/
def reqC2 : PyRequest :=
  { method := "POST", urlPath := "/wp_webhook", clientHost := "127.0.0.1",
    headers := headersOf
      [("X-Original-URI", ""), ("WalletPay-Timestamp", "1")],
    body := [], jsonParse := some (.arr []) }

/-- The payload `{"type": "ORDER_PAID"}` of `reqPaid`. -/
def paidPayload : Json := Json.obj [("type", Json.str "ORDER_PAID")]

theorem nat_or_eq_zero (x y : Nat) : x ||| y = 0 ↔ x = 0 ∧ y = 0 := by
  constructor
  · intro h
    refine ⟨Nat.eq_of_testBit_eq fun i => ?_, Nat.eq_of_testBit_eq fun i => ?_⟩ <;>
    · have hb := congrArg (fun n => Nat.testBit n i) h
      simp only [Nat.testBit_or, Nat.zero_testBit, Bool.or_eq_false_iff] at hb
      simp [hb.1, hb.2]
  · rintro ⟨rfl, rfl⟩
    rfl

theorem compareDigestRun_fst (l : List (Nat × Nat)) (acc : Nat) :
    (compareDigestRun l acc).1 = 0 ↔ acc = 0 ∧ ∀ p ∈ l, p.1 = p.2 := by
  induction l generalizing acc with
  | nil => simp [compareDigestRun]
  | cons p rest ih =>
    simp only [compareDigestRun, ih, nat_or_eq_zero, Nat.xor_eq_zero,
      List.forall_mem_cons]
    tauto

theorem compareDigestRun_snd (l : List (Nat × Nat)) (acc : Nat) :
    (compareDigestRun l acc).2 = l.length := by
  induction l generalizing acc with
  | nil => simp [compareDigestRun]
  | cons p rest ih => simp [compareDigestRun, ih]

theorem list_eq_of_zip_eq (a : List Nat) : ∀ b : List Nat, a.length = b.length →
    (∀ p ∈ a.zip b, p.1 = p.2) → a = b := by
  induction a with
  | nil =>
    intro b hb _
    cases b with
    | nil => rfl
    | cons y ys => simp at hb
  | cons x xs ih =>
    intro b hb hall
    cases b with
    | nil => simp at hb
    | cons y ys =>
      have hxy : x = y := hall (x, y) (by simp)
      have hrest : xs = ys := by
        refine ih ys (by simpa using hb) fun p hp => hall p ?_
        simp [hp]
      rw [hxy, hrest]

theorem zip_self_fst_eq_snd (a : List Nat) : ∀ p ∈ a.zip a, p.1 = p.2 := by
  induction a with
  | nil => simp
  | cons x xs ih =>
    simp only [List.zip_cons_cons, List.forall_mem_cons]
    exact ⟨by trivial, ih⟩

theorem compare_digest_eq_true_iff (a b : List Nat) :
    compare_digest a b = true ↔ a = b := by
  unfold compare_digest
  simp only [Bool.and_eq_true, beq_iff_eq]
  rw [compareDigestRun_fst]
  constructor
  · rintro ⟨hlen, -, hall⟩
    exact list_eq_of_zip_eq a b hlen hall
  · rintro rfl
    refine ⟨by trivial, by trivial, zip_self_fst_eq_snd a⟩

theorem compareDigestSteps_eq (a b : List Nat) :
    compareDigestSteps a b = min a.length b.length := by
  unfold compareDigestSteps
  rw [compareDigestRun_snd, List.length_zip]

theorem strCodes_injective {s t : String} (h : strCodes s = strCodes t) :
    s = t := by
  apply String.ext
  have h2 := congrArg (List.map Char.ofNat) h
  simpa [strCodes, List.map_map, Function.comp_def, Char.ofNat_toNat] using h2

theorem get_x_forwarded_for_mem {h : String → Option String} {ip : String}
    (hip : get_x_forwarded_for h = some ip) : ALLOWED_IPS.contains ip = true := by
  unfold get_x_forwarded_for at hip
  split at hip
  · cases hip
  · split at hip
    · cases hip
    · exact List.find?_some hip

theorem get_client_ip_error {req : PyRequest} {e : Nat × String}
    (he : get_client_ip req = Except.error e) : e = (403, "IP not allowed") := by
  unfold get_client_ip at he
  cases hx : get_x_forwarded_for req.headers with
  | some ip => rw [hx] at he; cases he
  | none =>
    rw [hx] at he
    by_cases hc : ALLOWED_IPS.contains req.clientHost = true
    · rw [if_pos hc] at he; cases he
    · rw [if_neg hc] at he; cases he; rfl

theorem get_x_forwarded_for_present {headers : String → Option String}
    {xff : String} (hx : headers "X-Forwarded-For" = some xff)
    (hne : xff ≠ "") :
    get_x_forwarded_for headers =
      (pySplitCommaSpace xff).find? (fun ip => ALLOWED_IPS.contains ip) := by
  unfold get_x_forwarded_for
  simp only [hx, if_neg hne]

theorem base64Alphabet_ascii : ∀ c ∈ base64Alphabet, c.toNat < 128 := by decide

theorem getD_ascii : ∀ (l : List Char) (i : Nat) (d : Char),
    (∀ c ∈ l, c.toNat < 128) → d.toNat < 128 → (l.getD i d).toNat < 128 := by
  intro l
  induction l with
  | nil => intro i d _ hd; simpa [List.getD_nil] using hd
  | cons x xs ih =>
    intro i d hl hd
    cases i with
    | zero => simpa [List.getD_cons_zero] using hl x (by simp)
    | succ n =>
      simpa [List.getD_cons_succ] using
        ih n d (fun c hc => hl c (by simp [hc])) hd

theorem base64Digit_ascii (i : Nat) : (base64Digit i).toNat < 128 :=
  getD_ascii base64Alphabet i 'A' base64Alphabet_ascii (by decide)

theorem b64EncodeChars_ascii : ∀ bs : List Nat, ∀ ch ∈ b64EncodeChars bs,
    ch.toNat < 128
  | [] => by simp [b64EncodeChars]
  | [a] => by
    intro ch hch
    simp only [b64EncodeChars, List.mem_cons, List.not_mem_nil, or_false] at hch
    rcases hch with rfl | rfl | rfl | rfl
    · exact base64Digit_ascii _
    · exact base64Digit_ascii _
    · decide
    · decide
  | [a, b] => by
    intro ch hch
    simp only [b64EncodeChars, List.mem_cons, List.not_mem_nil, or_false] at hch
    rcases hch with rfl | rfl | rfl | rfl
    · exact base64Digit_ascii _
    · exact base64Digit_ascii _
    · exact base64Digit_ascii _
    · decide
  | a :: b :: c :: rest => by
    intro ch hch
    simp only [b64EncodeChars, List.mem_cons] at hch
    rcases hch with rfl | rfl | rfl | rfl | hch
    · exact base64Digit_ascii _
    · exact base64Digit_ascii _
    · exact base64Digit_ascii _
    · exact base64Digit_ascii _
    · exact b64EncodeChars_ascii rest ch hch

theorem isAscii_b64encode (bs : List Nat) : isAsciiStr (b64encode bs) = true := by
  unfold isAsciiStr b64encode
  rw [List.all_eq_true]
  intro c hc
  exact decide_eq_true (b64EncodeChars_ascii bs c hc)

theorem pyCompareDigestStr_ok (a b : String) (ha : isAsciiStr a = true)
    (hb : isAsciiStr b = true) :
    pyCompareDigestStr a b =
      Except.ok (compare_digest (strCodes a) (strCodes b)) := by
  unfold pyCompareDigestStr
  rw [ha, hb]
  rfl

theorem pyCompareDigestStr_not_ascii (a b : String)
    (hb : isAsciiStr b = false) :
    pyCompareDigestStr a b = Except.error PyErr.typeError := by
  unfold pyCompareDigestStr
  rw [hb]
  simp

theorem pyCompareDigestStr_error {a b : String} {e : PyErr}
    (h : pyCompareDigestStr a b = Except.error e) : e = PyErr.typeError := by
  unfold pyCompareDigestStr at h
  split at h
  · cases h
  · cases h
    rfl

theorem handle_webhook_sig_mismatch {α : Type}
    (hmacFn : List Nat → List Nat → List Nat) (mgr : WebhookManagerState α)
    (req : PyRequest) (d : Json) (sig ip : String)
    (hip : get_client_ip req = Except.ok ip)
    (hjson : req.jsonParse = some d)
    (hsig : req.headers "Walletpay-Signature" = some sig)
    (hascii : isAsciiStr sig = true)
    (hne : sig ≠ expectedSignatureB64 hmacFn mgr.api_key req) :
    handle_webhook hmacFn mgr req =
      (.httpException 400 "Invalid signature", []) := by
  have hexp : isAsciiStr (expectedSignatureB64 hmacFn mgr.api_key req) = true :=
    isAscii_b64encode _
  have hcmp : compare_digest
      (strCodes (expectedSignatureB64 hmacFn mgr.api_key req))
      (strCodes sig) = false := by
    rw [← Bool.not_eq_true, compare_digest_eq_true_iff]
    intro he
    exact hne (strCodes_injective he).symm
  have hpc : pyCompareDigestStr (expectedSignatureB64 hmacFn mgr.api_key req)
      sig = Except.ok false := by
    rw [pyCompareDigestStr_ok _ _ hexp hascii, hcmp]
  simp [handle_webhook, hip, hjson, hsig, hpc]

/-- Claim C2, counterexample: for a request whose `X-Original-URI` header is
present with the empty string as value, the message the handler signs uses the
locally parsed path (Python `or` discards the falsy empty header), so it differs
from the claim's message, which uses the header value whenever the header is
present. -/
theorem canonical_message_empty_origin_header_counterexample :
    reqC2.headers "X-Original-URI" = some "" ∧
    canonicalMessage reqC2 ≠ canonicalMessageClaim reqC2 :=
  ⟨rfl, by decide⟩

/-- Claim C2, amended: the canonical message is the `.`-joined concatenation of
the HTTP method, the path (the `X-Original-URI` header value when that header is
present and nonempty, otherwise the locally parsed request path), the
`WalletPay-Timestamp` header value (the literal text `None` when the header is
absent), and the base64 encoding of the raw body bytes, in that fixed order. -/
theorem canonical_message_amended (req : PyRequest) :
    canonicalMessage req = canonicalMessageAmended req := by
  unfold canonicalMessage canonicalMessageAmended requestPath
  cases req.headers "X-Original-URI" <;> rfl

/-- Claim C3: when the `X-Forwarded-For` header splits (on `", "`) into a list
containing an allowed candidate, the resolver returns the first allowed
candidate in header order, without consulting the peer address; when the header
is present but yields no allowed candidate, or is absent or empty, resolution
falls through to evaluating the direct peer address. -/
theorem forwarded_for_resolution (req : PyRequest) :
    (∀ xff, req.headers "X-Forwarded-For" = some xff → xff ≠ "" →
      (∀ ip, (pySplitCommaSpace xff).find? (fun c => ALLOWED_IPS.contains c) =
          some ip → get_client_ip req = Except.ok ip) ∧
      ((pySplitCommaSpace xff).find? (fun c => ALLOWED_IPS.contains c) = none →
        get_client_ip req =
          if ALLOWED_IPS.contains req.clientHost then Except.ok req.clientHost
          else Except.error (403, "IP not allowed"))) ∧
    ((req.headers "X-Forwarded-For" = none ∨
        req.headers "X-Forwarded-For" = some "") →
      get_client_ip req =
        if ALLOWED_IPS.contains req.clientHost then Except.ok req.clientHost
        else Except.error (403, "IP not allowed")) := by
  constructor
  · intro xff hx hne
    constructor
    · intro ip hfind
      unfold get_client_ip
      rw [get_x_forwarded_for_present hx hne, hfind]
    · intro hfind
      unfold get_client_ip
      rw [get_x_forwarded_for_present hx hne, hfind]
  · rintro (hx | hx) <;> simp [get_client_ip, get_x_forwarded_for, hx]

/-- Claim C3, witness: a disallowed peer with a forwarding header whose second
candidate is the first allowed one resolves to that candidate. -/
theorem forwarded_for_resolution_witness :
    get_client_ip reqXff = Except.ok "172.255.248.12" :=
  ((forwarded_for_resolution reqXff).1 "8.8.8.8, 172.255.248.12, 127.0.0.1"
    rfl (by decide)).1 "172.255.248.12" (by decide)

/-- Claim C8: `hmac.compare_digest` accepts exactly byte-for-byte equal inputs
(both at the string level the handler uses and at the byte level), and the
number of comparison steps it performs depends only on the input lengths, never
on where the inputs differ: there is no early return on a partial match. -/
theorem signature_compare_constant_time (e s : String) (a b a2 b2 : List Nat) :
    (compare_digest (strCodes e) (strCodes s) = true ↔ e = s) ∧
    (compare_digest a b = true ↔ a = b) ∧
    (a.length = a2.length → b.length = b2.length →
      compareDigestSteps a b = compareDigestSteps a2 b2) := by
  refine ⟨?_, compare_digest_eq_true_iff a b, ?_⟩
  · rw [compare_digest_eq_true_iff]
    exact ⟨fun h => strCodes_injective h, fun h => h ▸ rfl⟩
  · intro h1 h2
    rw [compareDigestSteps_eq, compareDigestSteps_eq, h1, h2]

/-- Claim C8, witness: the matching signature is accepted, and the step count on
byte lists differing in the first position equals the step count on byte lists
differing in the last position. -/
theorem signature_compare_constant_time_witness :
    compare_digest (strCodes "AAEC") (strCodes "AAEC") = true ∧
    compareDigestSteps [0, 255] [255, 255] = compareDigestSteps [7, 7] [7, 0] :=
  ⟨(signature_compare_constant_time "AAEC" "AAEC" [] [] [] []).1.mpr rfl,
   (signature_compare_constant_time "" "" [0, 255] [255, 255] [7, 7]
     [7, 0]).2.2 rfl rfl⟩

/-- Claim C9: registering a handler through the success decorator appends it to
the end of the success list, leaves the failure list unchanged and returns the
same handler; symmetrically for the failure decorator; registering the same
handler twice appends it twice. -/
theorem handler_registration_append {α : Type} (mgr : WebhookManagerState α)
    (f : α) :
    (successful_handler mgr f).1.successful_callbacks =
      mgr.successful_callbacks ++ [f] ∧
    (successful_handler mgr f).1.failed_callbacks = mgr.failed_callbacks ∧
    (successful_handler mgr f).2 = f ∧
    (failed_handler mgr f).1.failed_callbacks = mgr.failed_callbacks ++ [f] ∧
    (failed_handler mgr f).1.successful_callbacks = mgr.successful_callbacks ∧
    (failed_handler mgr f).2 = f ∧
    (successful_handler (successful_handler mgr f).1 f).1.successful_callbacks =
      mgr.successful_callbacks ++ [f] ++ [f] ∧
    (failed_handler (failed_handler mgr f).1 f).1.failed_callbacks =
      mgr.failed_callbacks ++ [f] ++ [f] :=
  ⟨rfl, rfl, rfl, rfl, rfl, rfl, rfl, rfl⟩

/-- Claim C10: for a nonempty `webhook_endpoint` whose first character is not
`/`, the stored endpoint is `/` prepended to it, otherwise it is stored
unchanged; either way the stored endpoint begins with `/` (the claim's
normalization; an empty string raises `IndexError` at `webhook_endpoint[0]`). -/
theorem webhook_endpoint_normalization (s : String) (c : Char) (cs : List Char)
    (h : s.data = c :: cs) :
    initWebhookEndpoint s = Except.ok (if c = '/' then s else "/" ++ s) ∧
    ∀ t, initWebhookEndpoint s = Except.ok t → t.data.head? = some '/' := by
  have hinit : initWebhookEndpoint s =
      Except.ok (if c = '/' then s else "/" ++ s) := by
    unfold initWebhookEndpoint
    rw [h]
  refine ⟨hinit, ?_⟩
  intro t ht
  rw [hinit] at ht
  injection ht with ht2
  subst ht2
  by_cases hc : c = '/'
  · rw [if_pos hc]
    simp [h, hc]
  · rw [if_neg hc]
    show ('/' :: s.data).head? = some '/'
    rfl

/-- Claim C10, witness: `"wp_webhook"` is stored as `"/wp_webhook"`. -/
theorem webhook_endpoint_normalization_witness :
    initWebhookEndpoint "wp_webhook" = Except.ok "/wp_webhook" :=
  ((webhook_endpoint_normalization "wp_webhook" 'w' "p_webhook".data
    rfl).1).trans (by rfl)

/-- Claim C1: for a request that passes the IP gate, whose signature header
equals the expected signature, and whose body parses to JSON whose first element
yields an event: on `ORDER_PAID` every success callback is invoked exactly once,
in registration order, and the response message is
`Successful event processed!`; on `ORDER_FAILED` likewise for the failure
callbacks with `Failed event processed!`; for any other type value no callback
is invoked and the message is `Webhook received with unknown status!`.
Callbacks are modelled as non-failing; the trace lists invocations in order. -/
theorem dispatch_by_event_type {α : Type}
    (hmacFn : List Nat → List Nat → List Nat) (mgr : WebhookManagerState α)
    (req : PyRequest) (d v : Json)
    (hip : ∃ ip, get_client_ip req = Except.ok ip)
    (hjson : req.jsonParse = some d)
    (hsig : req.headers "Walletpay-Signature" =
      some (expectedSignatureB64 hmacFn mgr.api_key req))
    (hidx : pyIndex0 d = Except.ok v) :
    (Event.type (Event.mk v) = some "ORDER_PAID" →
      handle_webhook hmacFn mgr req =
        (.response "Successful event processed!",
         mgr.successful_callbacks.map (fun c => (c, Event.mk v)))) ∧
    (Event.type (Event.mk v) = some "ORDER_FAILED" →
      handle_webhook hmacFn mgr req =
        (.response "Failed event processed!",
         mgr.failed_callbacks.map (fun c => (c, Event.mk v)))) ∧
    (Event.type (Event.mk v) ≠ some "ORDER_PAID" →
      Event.type (Event.mk v) ≠ some "ORDER_FAILED" →
      handle_webhook hmacFn mgr req =
        (.response "Webhook received with unknown status!", [])) := by
  obtain ⟨ip, hip⟩ := hip
  have hexp : isAsciiStr (expectedSignatureB64 hmacFn mgr.api_key req) = true :=
    isAscii_b64encode _
  have hpc : pyCompareDigestStr (expectedSignatureB64 hmacFn mgr.api_key req)
      (expectedSignatureB64 hmacFn mgr.api_key req) = Except.ok true := by
    rw [pyCompareDigestStr_ok _ _ hexp hexp,
      (compare_digest_eq_true_iff _ _).mpr rfl]
  refine ⟨fun h1 => ?_, fun h1 => ?_, fun h1 h2 => ?_⟩
  · simp [handle_webhook, hip, hjson, hsig, hpc, hidx, dispatchEvent, h1]
  · simp [handle_webhook, hip, hjson, hsig, hpc, hidx, dispatchEvent, h1]
  · simp [handle_webhook, hip, hjson, hsig, hpc, hidx, dispatchEvent, h1, h2]

/-- Claim C1, witness: a valid `ORDER_PAID` request runs the two registered
success callbacks once each, in registration order. -/
theorem dispatch_by_event_type_witness :
    handle_webhook hmacConst mgrTest reqPaid =
      (.response "Successful event processed!",
       [(10, Event.mk paidPayload), (20, Event.mk paidPayload)]) := by
  have h := (dispatch_by_event_type hmacConst mgrTest reqPaid
    (Json.arr [paidPayload]) paidPayload ⟨"127.0.0.1", rfl⟩ rfl rfl rfl).1 rfl
  exact h.trans (by rfl)

/-- Claim C4: the resolver returns normally iff the forwarding header yields an
allowed candidate or the direct peer address is in the allowed set; any returned
IP is a member of the allowed set; otherwise the handler responds 403 with
detail `IP not allowed` and no later pipeline stage runs (no callback is
invoked, the trace is empty). -/
theorem ip_gate_membership {α : Type}
    (hmacFn : List Nat → List Nat → List Nat) (mgr : WebhookManagerState α)
    (req : PyRequest) :
    ((∃ ip, get_client_ip req = Except.ok ip) ↔
      (get_x_forwarded_for req.headers).isSome = true ∨
      ALLOWED_IPS.contains req.clientHost = true) ∧
    (∀ ip, get_client_ip req = Except.ok ip →
      ALLOWED_IPS.contains ip = true) ∧
    ((∀ ip, get_client_ip req ≠ Except.ok ip) →
      handle_webhook hmacFn mgr req =
        (.httpException 403 "IP not allowed", [])) := by
  refine ⟨?_, ?_, ?_⟩
  · unfold get_client_ip
    cases hx : get_x_forwarded_for req.headers with
    | some ip => simp [hx]
    | none =>
      by_cases hc : req.clientHost ∈ ALLOWED_IPS
      · simp [hx, hc]
      · simp [hx, hc]
  · intro ip hip
    unfold get_client_ip at hip
    split at hip
    · rename_i ip2 hx
      cases hip
      exact get_x_forwarded_for_mem hx
    · split at hip
      · rename_i hc
        cases hip
        exact hc
      · cases hip
  · intro hnone
    have herr : get_client_ip req = Except.error (403, "IP not allowed") := by
      cases he : get_client_ip req with
      | ok ip => exact absurd he (hnone ip)
      | error e => rw [get_client_ip_error he]
    simp [handle_webhook, herr]

/-- Claim C4, witness: the disallowed peer 10.0.0.5 with no forwarding header is
rejected with 403 `IP not allowed` and runs no callback. -/
theorem ip_gate_membership_witness :
    handle_webhook hmacConst mgrTest reqBadPeer =
      (.httpException 403 "IP not allowed", []) :=
  (ip_gate_membership hmacConst mgrTest reqBadPeer).2.2
    (fun _ h => Except.noConfusion h)

/-- Claim C5, counterexample: a request that passes the IP gate, has a valid
JSON body and a timestamp header, but no `Walletpay-Signature` header, makes the
handler raise an unhandled `TypeError` inside `hmac.compare_digest` — a crash,
not the structured invalid-signature outcome the claim requires. -/
theorem missing_signature_header_counterexample :
    get_client_ip reqNoSig = Except.ok "127.0.0.1" ∧
    reqNoSig.headers "Walletpay-Signature" = none ∧
    handle_webhook hmacConst mgrTest reqNoSig =
      (.unhandled PyErr.typeError, []) ∧
    HandlerOutcome.unhandled PyErr.typeError ≠
      HandlerOutcome.httpException 400 "Invalid signature" :=
  ⟨rfl, rfl, rfl, by decide⟩

/-- Claim C5, amended: a missing `Walletpay-Signature` header — and likewise a
present signature header containing a non-ASCII character (a latin-1-decoded
header byte at or above 0x80) — crashes the handler with an unhandled
`TypeError` from `hmac.compare_digest` instead of producing a structured
verification-failure response; only a missing `WalletPay-Timestamp` header with
a present ASCII signature does not crash the verification stage: the literal
text `None` stands in for the timestamp in the signed message and a non-matching
signature yields the structured 400 invalid-signature response. -/
theorem missing_header_verification_amended {α : Type}
    (hmacFn : List Nat → List Nat → List Nat) (mgr : WebhookManagerState α)
    (req : PyRequest) (d : Json)
    (hip : ∃ ip, get_client_ip req = Except.ok ip)
    (hjson : req.jsonParse = some d) :
    (req.headers "Walletpay-Signature" = none →
      handle_webhook hmacFn mgr req = (.unhandled PyErr.typeError, [])) ∧
    (∀ sig, req.headers "Walletpay-Signature" = some sig →
      isAsciiStr sig = false →
      handle_webhook hmacFn mgr req = (.unhandled PyErr.typeError, [])) ∧
    (∀ sig, req.headers "Walletpay-Signature" = some sig →
      isAsciiStr sig = true →
      req.headers "WalletPay-Timestamp" = none →
      canonicalMessage req =
        req.method ++ "." ++ requestPath req ++ "." ++ "None" ++ "." ++
          b64encode req.body ∧
      (sig ≠ expectedSignatureB64 hmacFn mgr.api_key req →
        handle_webhook hmacFn mgr req =
          (.httpException 400 "Invalid signature", []))) := by
  obtain ⟨ip, hip⟩ := hip
  refine ⟨?_, ?_, ?_⟩
  · intro hs
    simp [handle_webhook, hip, hjson, hs]
  · intro sig hs hascii
    have hpc := pyCompareDigestStr_not_ascii
      (expectedSignatureB64 hmacFn mgr.api_key req) sig hascii
    simp [handle_webhook, hip, hjson, hs, hpc]
  · intro sig hs hascii hts
    constructor
    · unfold canonicalMessage
      rw [hts]
      rfl
    · intro hne
      exact handle_webhook_sig_mismatch hmacFn mgr req d sig ip hip hjson hs
        hascii hne

/-- Claim C5, witness: the missing-signature crash, the non-ASCII-signature
crash, and the missing-timestamp structured rejection, at concrete requests that
pass the IP gate. -/
theorem missing_header_verification_amended_witness :
    handle_webhook hmacConst mgrTest reqNoSig =
      (.unhandled PyErr.typeError, []) ∧
    handle_webhook hmacConst mgrTest reqNonAsciiSig =
      (.unhandled PyErr.typeError, []) ∧
    handle_webhook hmacConst mgrTest reqNoTs =
      (.httpException 400 "Invalid signature", []) :=
  ⟨(missing_header_verification_amended hmacConst mgrTest reqNoSig
      (Json.arr [paidPayload]) ⟨"127.0.0.1", rfl⟩ rfl).1 rfl,
   (missing_header_verification_amended hmacConst mgrTest reqNonAsciiSig
      (Json.arr [paidPayload]) ⟨"127.0.0.1", rfl⟩ rfl).2.1 "\u00FF" rfl
     (by decide),
   ((missing_header_verification_amended hmacConst mgrTest reqNoTs
      (Json.arr [paidPayload]) ⟨"127.0.0.1", rfl⟩ rfl).2.2 "WRONG" rfl
     (by decide) rfl).2 (by decide)⟩

/-- Claim C6, counterexample: a request that passes the IP gate with an invalid
JSON body makes the handler raise an unhandled decode error, which surfaces as
the framework's generic server error rather than a locally produced structured
JSON detail body; and an empty-array body whose signature does not match is
answered by the invalid-signature response, not any payload-specific outcome. -/
theorem malformed_payload_counterexample :
    get_client_ip reqBadJson = Except.ok "127.0.0.1" ∧
    reqBadJson.jsonParse = none ∧
    handle_webhook hmacConst mgrTest reqBadJson =
      (.unhandled PyErr.jsonDecodeError, []) ∧
    handle_webhook hmacConst mgrTest reqEmptyArr =
      (.httpException 400 "Invalid signature", []) ∧
    HandlerOutcome.unhandled PyErr.jsonDecodeError ≠
      HandlerOutcome.httpException 400 "Invalid signature" :=
  ⟨rfl, rfl, rfl, rfl, by decide⟩

/-- Claim C6, amended: for a request that passes the IP gate, an unparseable
body raises an unhandled JSON decode error before signature verification; a body
parsing to the empty array never reaches a callback (the trace is empty) and
ends in an unhandled index error at `data[0]`, an unhandled `TypeError` when the
signature header is also missing, or the invalid-signature response when the
signature check fails first. -/
theorem malformed_payload_amended {α : Type}
    (hmacFn : List Nat → List Nat → List Nat) (mgr : WebhookManagerState α)
    (req : PyRequest)
    (hip : ∃ ip, get_client_ip req = Except.ok ip) :
    (req.jsonParse = none →
      handle_webhook hmacFn mgr req =
        (.unhandled PyErr.jsonDecodeError, [])) ∧
    (req.jsonParse = some (Json.arr []) →
      (handle_webhook hmacFn mgr req).2 = [] ∧
      ((handle_webhook hmacFn mgr req).1 = .unhandled PyErr.indexError ∨
       (handle_webhook hmacFn mgr req).1 = .unhandled PyErr.typeError ∨
       (handle_webhook hmacFn mgr req).1 =
         .httpException 400 "Invalid signature")) := by
  obtain ⟨ip, hip⟩ := hip
  constructor
  · intro hjson
    simp [handle_webhook, hip, hjson]
  · intro hjson
    cases hs : req.headers "Walletpay-Signature" with
    | none => simp [handle_webhook, hip, hjson, hs]
    | some sig =>
      cases hpc : pyCompareDigestStr
          (expectedSignatureB64 hmacFn mgr.api_key req) sig with
      | error e =>
        have he := pyCompareDigestStr_error hpc
        subst he
        simp [handle_webhook, hip, hjson, hs, hpc]
      | ok b =>
        cases b with
        | true => simp [handle_webhook, hip, hjson, hs, hpc, pyIndex0]
        | false => simp [handle_webhook, hip, hjson, hs, hpc]

/-- Claim C6, witness: the invalid-JSON request ends in the unhandled decode
error, and the empty-array request runs no callback. -/
theorem malformed_payload_amended_witness :
    handle_webhook hmacConst mgrTest reqBadJson =
      (.unhandled PyErr.jsonDecodeError, []) ∧
    (handle_webhook hmacConst mgrTest reqEmptyArr).2 = [] :=
  ⟨(malformed_payload_amended hmacConst mgrTest reqBadJson
      ⟨"127.0.0.1", rfl⟩).1 rfl,
   ((malformed_payload_amended hmacConst mgrTest reqEmptyArr
      ⟨"127.0.0.1", rfl⟩).2 rfl).1⟩

/-- Claim C7, counterexample: a request that passes the IP gate and carries a
non-matching signature but an unparseable body fails with the unhandled JSON
decode error — the body is parsed before the signature is checked — not with the
400 invalid-signature response the claim requires for every such request. -/
theorem invalid_signature_counterexample :
    get_client_ip reqC7 = Except.ok "127.0.0.1" ∧
    reqC7.headers "Walletpay-Signature" = some "WRONG" ∧
    "WRONG" ≠ expectedSignatureB64 hmacConst mgrTest.api_key reqC7 ∧
    handle_webhook hmacConst mgrTest reqC7 =
      (.unhandled PyErr.jsonDecodeError, []) ∧
    HandlerOutcome.unhandled PyErr.jsonDecodeError ≠
      HandlerOutcome.httpException 400 "Invalid signature" :=
  ⟨rfl, rfl, by decide, rfl, by decide⟩

/-- Claim C7, amended: for a request that passes the IP gate, whose body parses
as JSON, and whose `Walletpay-Signature` header is present: when the header
value is ASCII and differs from the expected base64-encoded HMAC of the
canonical message, the handler responds 400 with detail `Invalid signature`,
performing no event classification and invoking no callback (the trace is
empty); when the header value contains a non-ASCII character (a latin-1-decoded
header byte at or above 0x80), `hmac.compare_digest` instead raises an unhandled
`TypeError` — a crash, still with no classification and no callback. -/
theorem invalid_signature_amended {α : Type}
    (hmacFn : List Nat → List Nat → List Nat) (mgr : WebhookManagerState α)
    (req : PyRequest) (d : Json) (sig : String)
    (hip : ∃ ip, get_client_ip req = Except.ok ip)
    (hjson : req.jsonParse = some d)
    (hsig : req.headers "Walletpay-Signature" = some sig) :
    (isAsciiStr sig = true →
      sig ≠ expectedSignatureB64 hmacFn mgr.api_key req →
      handle_webhook hmacFn mgr req =
        (.httpException 400 "Invalid signature", [])) ∧
    (isAsciiStr sig = false →
      handle_webhook hmacFn mgr req = (.unhandled PyErr.typeError, [])) := by
  obtain ⟨ip, hip⟩ := hip
  constructor
  · intro hascii hne
    exact handle_webhook_sig_mismatch hmacFn mgr req d sig ip hip hjson hsig
      hascii hne
  · intro hascii
    have hpc := pyCompareDigestStr_not_ascii
      (expectedSignatureB64 hmacFn mgr.api_key req) sig hascii
    simp [handle_webhook, hip, hjson, hsig, hpc]

/-- Claim C7, witness: the empty-array request with the ASCII signature `WRONG`
is rejected with the 400 invalid-signature response and an empty trace, and the
request with the non-ASCII signature crashes with the unhandled `TypeError`. -/
theorem invalid_signature_amended_witness :
    handle_webhook hmacConst mgrTest reqEmptyArr =
      (.httpException 400 "Invalid signature", []) ∧
    handle_webhook hmacConst mgrTest reqNonAsciiSig =
      (.unhandled PyErr.typeError, []) :=
  ⟨(invalid_signature_amended hmacConst mgrTest reqEmptyArr (Json.arr [])
      "WRONG" ⟨"127.0.0.1", rfl⟩ rfl rfl).1 (by decide) (by decide),
   (invalid_signature_amended hmacConst mgrTest reqNonAsciiSig
      (Json.arr [paidPayload]) "\u00FF" ⟨"127.0.0.1", rfl⟩ rfl rfl).2
     (by decide)⟩

end WalletPayModel
